import Mathlib

/-!
Verification of the parcel-projects MCP server (`src/server.js`) against its
natural-language specification.  The development shallowly embeds the
JavaScript source: JS values are modelled by `JsVal` (numbers as exact
rationals plus NaN/±Infinity; JS `undefined` is modelled by `Option.none`
wherever a property lookup can miss), the remote backend and the LLM are
modelled as oracles (`Backend`), and the process-wide conversational memory is
threaded explicitly through `runTool`.
-/

/-- A JavaScript number: an exact rational for the finite case (double
rounding is not modelled; none of the verified paths depend on it), plus the
three non-finite values. -/
inductive JsNum where
  | fin (q : ℚ)
  | nan
  | posInf
  | negInf

/-- A JavaScript/JSON value.  `undefined` is not a `JsVal`: absent properties
surface as `Option.none` from the lookup helpers, matching how the source only
ever meets `undefined` through property access. -/
inductive JsVal where
  | null
  | bool (b : Bool)
  | num (n : JsNum)
  | str (s : String)
  | arr (elems : List JsVal)
  | obj (fields : List (String × JsVal))

/-- Property lookup `v[k]`: defined on objects, `undefined` (`none`) on
everything else (string-keyed access on arrays and primitives used by the
source always misses). -/
def jsGet : JsVal → String → Option JsVal
  | .obj fields, k => lookupField fields k
  | _, _ => none
where lookupField : List (String × JsVal) → String → Option JsVal
  | [], _ => none
  | (k', v) :: rest, k => if k' = k then some v else lookupField rest k

/-- JS truthiness. -/
def jsTruthy : JsVal → Bool
  | .null => false
  | .bool b => b
  | .num (.fin q) => q != 0
  | .num .nan => false
  | .num _ => true
  | .str s => s != ""
  | .arr _ => true
  | .obj _ => true

/-- The string `typeof v` evaluates to (`null` is famously `"object"`). -/
def jsTypeof : JsVal → String
  | .null => "object"
  | .bool _ => "boolean"
  | .num _ => "number"
  | .str _ => "string"
  | .arr _ => "object"
  | .obj _ => "object"

/-- Collapse an explicit `null` into `none`, so that `??` (nullish
coalescing), which treats `null` and `undefined` alike, becomes `Option`
choice. -/
def unNullish : Option JsVal → Option JsVal
  | some .null => none
  | o => o

/-- The JS expression `a ?? b`, on optional values (`none` = `undefined`). -/
def nullishCoalesce (a b : Option JsVal) : Option JsVal :=
  match unNullish a with
  | some v => some v
  | none => b

/-- The JS expression `a ?? d` where `d` is a known non-nullish default. -/
def nnD (a : Option JsVal) (d : JsVal) : JsVal :=
  match unNullish a with
  | some v => v
  | none => d

/-- The JS expression `a || d`: `a` when truthy, else `d` (with `none` =
`undefined`, which is falsy). -/
def truthyOr (a : Option JsVal) (d : JsVal) : JsVal :=
  match a with
  | some v => if jsTruthy v then v else d
  | none => d

/-- Drop leading whitespace characters. -/
def dropLeadingWs : List Char → List Char
  | [] => []
  | c :: rest => if c.isWhitespace then dropLeadingWs rest else c :: rest

/-- The JS `String.prototype.trim()` (on the whitespace classes Lean's
`Char.isWhitespace` recognizes), implemented structurally so concrete
instances reduce in the kernel. -/
def jsTrim (s : String) : String :=
  String.mk ((dropLeadingWs (dropLeadingWs s.toList).reverse).reverse)

/-- Decimal digits of a natural number, most significant first. -/
def natDigitsStr (n : Nat) : String := toString n

/-- Render a finite JS number the way a template literal would.  Integers
print exactly; a non-integral rational prints as its (possibly truncated at 30
digits) decimal expansion — JS doubles always have a short expansion, so the
truncation is unreachable for values a double can hold. -/
def finNumToString (q : ℚ) : String :=
  if q < 0 then "-" ++ finNumToStringNonneg (-q) else finNumToStringNonneg q
where
  fracDigits : Nat → Nat → Nat → String
    | 0, _, _ => ""
    | _, 0, _ => ""
    | fuel + 1, rem, den =>
      let r10 := rem * 10
      natDigitsStr (r10 / den) ++ fracDigits fuel (r10 % den) den
  finNumToStringNonneg (q : ℚ) : String :=
    let n := q.num.toNat
    let ip := n / q.den
    let rem := n % q.den
    if rem = 0 then natDigitsStr ip
    else natDigitsStr ip ++ "." ++ fracDigits 30 rem q.den

/-- Render a JS number as `String(...)` would. -/
def jsNumToString : JsNum → String
  | .fin q => finNumToString q
  | .nan => "NaN"
  | .posInf => "Infinity"
  | .negInf => "-Infinity"

mutual
/-- The JS string conversion `String(v)` (objects stringify to
`"[object Object]"`, arrays to their comma-joined elements, per
`Array.prototype.toString`). -/
def jsToString : JsVal → String
  | .null => "null"
  | .bool b => if b then "true" else "false"
  | .num n => jsNumToString n
  | .str s => s
  | .arr xs => joinedElems xs
  | .obj _ => "[object Object]"

/-- Comma-joined rendering of array elements (JS renders `null` elements as
the empty string inside a join). -/
def joinedElems : List JsVal → String
  | [] => ""
  | [x] => elemToString x
  | x :: y :: rest => elemToString x ++ "," ++ joinedElems (y :: rest)

/-- One array element inside a join: `null` becomes empty, everything else
converts as usual. -/
def elemToString : JsVal → String
  | .null => ""
  | .bool b => if b then "true" else "false"
  | .num n => jsNumToString n
  | .str s => s
  | .arr xs => joinedElems xs
  | .obj _ => "[object Object]"
end

/-- The JS string conversion applied to a possibly-`undefined` value
(`String(undefined)` is the string `"undefined"`). -/
def jsToStringOpt : Option JsVal → String
  | none => "undefined"
  | some v => jsToString v

/-- Is this character a decimal digit? -/
def isDecDigit (c : Char) : Bool := 48 ≤ c.toNat && c.toNat ≤ 57

/-- Split off a maximal run of leading decimal digits. -/
def splitDigits : List Char → List Char × List Char
  | [] => ([], [])
  | c :: rest =>
    if isDecDigit c then
      let (ds, r) := splitDigits rest
      (c :: ds, r)
    else ([], c :: rest)

/-- Natural-number value of a digit run. -/
def digitRunVal (ds : List Char) : Nat := go 0 ds
where go (acc : Nat) : List Char → Nat
  | [] => acc
  | c :: rest => go (10 * acc + (c.toNat - 48)) rest

/-- Value of a hexadecimal digit, if any. -/
def hexDigitVal (c : Char) : Option Nat :=
  let n := c.toNat
  if 48 ≤ n ∧ n ≤ 57 then some (n - 48)
  else if 97 ≤ n ∧ n ≤ 102 then some (n - 87)
  else if 65 ≤ n ∧ n ≤ 70 then some (n - 55)
  else none

/-- Value of a run of hex digits (`none` when empty or a non-hex char
appears). -/
def hexRunVal : List Char → Option Nat → Option Nat
  | [], acc => acc
  | c :: rest, acc =>
    match hexDigitVal c with
    | some d => hexRunVal rest (some ((acc.getD 0) * 16 + d))
    | none => none

/-- Scale a rational by a signed power of ten. -/
def mulPow10 (q : ℚ) (e : Int) : ℚ :=
  if 0 ≤ e then q * (10 : ℚ) ^ e.toNat else q / (10 : ℚ) ^ (-e).toNat

/-- Parse the decimal-literal fragment of JS `ToNumber` on strings:
optional sign, `Infinity`, or `digits [. digits] [e[±]digits]` /
`.digits [e[±]digits]`; the whole input must be consumed. -/
def decLiteralToNum (cs : List Char) : Option JsNum :=
  let (neg, cs1) :=
    match cs with
    | '-' :: r => (true, r)
    | '+' :: r => (false, r)
    | _ => (false, cs)
  match cs1 with
  | 'I' :: 'n' :: 'f' :: 'i' :: 'n' :: 'i' :: 't' :: 'y' :: [] =>
    some (if neg then .negInf else .posInf)
  | _ =>
    let (intDs, cs2) := splitDigits cs1
    let (fracDs, cs3) :=
      match cs2 with
      | '.' :: r => splitDigits r
      | _ => ([], cs2)
    if intDs.isEmpty && fracDs.isEmpty then none
    else
      let mant : ℚ := (digitRunVal intDs : ℚ) +
        (digitRunVal fracDs : ℚ) / (10 : ℚ) ^ fracDs.length
    -- decide whether a '.' was actually consumed: cs3 ≠ cs2 exactly when it was
      let (expOk, expVal, cs4) :=
        match cs3 with
        | 'e' :: r | 'E' :: r =>
          let (esign, r1) :=
            match r with
            | '-' :: r' => (true, r')
            | '+' :: r' => (false, r')
            | _ => (false, r)
          let (eds, r2) := splitDigits r1
          if eds.isEmpty then (false, (0 : Int), r2)
          else (true, (if esign then -(digitRunVal eds : Int) else (digitRunVal eds : Int)), r2)
        | _ => (true, (0 : Int), cs3)
      if !expOk then none
      else if !cs4.isEmpty then none
      else
        let v := mulPow10 mant expVal
        some (.fin (if neg then -v else v))

/-- JS `ToNumber` on a string: trim, empty is `0`, then hex/octal/binary
prefixes (sign-less) or a signed decimal literal; anything else is `NaN`. -/
def strToNumber (s : String) : JsNum :=
  let cs := (jsTrim s).toList
  match cs with
  | [] => .fin 0
  | '0' :: x :: rest =>
    if x = 'x' || x = 'X' then
      match hexRunVal rest none with
      | some n => .fin (n : ℚ)
      | none => .nan
    else (decLiteralToNum cs).getD .nan
  | _ => (decLiteralToNum cs).getD .nan

/-- JS `Number(v)` coercion (objects coerce through their string form; plain
objects give `NaN`, arrays go through their join). -/
def jsToNumber : JsVal → JsNum
  | .null => .fin 0
  | .bool b => .fin (if b then 1 else 0)
  | .num n => n
  | .str s => strToNumber s
  | .arr xs => strToNumber (joinedElems xs)
  | .obj _ => .nan

/-- Property assignment `v[k] := x` on an object (update in place, else
append); a no-op on non-objects, which the source never reaches because every
assignment site is guarded by a successful property read. -/
def objSet (v : JsVal) (k : String) (x : JsVal) : JsVal :=
  match v with
  | .obj fields => .obj (setField fields k x)
  | w => w
where setField : List (String × JsVal) → String → JsVal → List (String × JsVal)
  | [], k, x => [(k, x)]
  | (k', v') :: rest, k, x =>
    if k' = k then (k, x) :: rest else (k', v') :: setField rest k x

/-- Truthiness of a JS `string | null` variable (`none` = `null`), as used by
the `!id` guards in the resolution chain. -/
def strOptTruthy : Option String → Bool
  | some s => s != ""
  | none => false

/-! ### Argument validation helpers (`requireString`, `hasNonEmptyString`) -/

/-- The source's `requireString(obj, key)`: the property must be a string with
non-empty trim; the trimmed value is returned. -/
def requireString (args : JsVal) (key : String) : Except String String :=
  match jsGet args key with
  | some (.str s) =>
    if jsTrim s = "" then .error ("Missing or invalid \"" ++ key ++ "\"")
    else .ok (jsTrim s)
  | _ => .error ("Missing or invalid \"" ++ key ++ "\"")

/-- The source's `hasNonEmptyString(obj, key)`. -/
def hasNonEmptyString (args : JsVal) (key : String) : Bool :=
  match jsGet args key with
  | some (.str s) => jsTrim s != ""
  | _ => false

/-! ### List payload normalization (`normalizeListPayload`) -/

/-- Canonical `{items, total}` shape.  The source guarantees `total` is a
finite number (non-finite coercions fall back to `items.length`), so a
rational suffices. -/
structure NormPayload where
  items : List JsVal
  total : ℚ

/-- The candidates loop of `normalizeListPayload`: the first `(key, obj)` pair
whose `obj` is a truthy object carrying an array under `key` wins; returns
that array together with the object it was found on. -/
def findListCandidate : List (String × Option JsVal) → Option (JsVal × List JsVal)
  | [] => none
  | (k, o) :: rest =>
    match o with
    | some hostObj =>
      if jsTruthy hostObj && jsTypeof hostObj == "object" then
        match jsGet hostObj k with
        | some (.arr xs) => some (hostObj, xs)
        | _ => findListCandidate rest
      else findListCandidate rest
    | none => findListCandidate rest

/-- The source's total computation on a matched candidate:
`Number(obj.total ?? obj.count ?? obj.totalCount ?? items.length)`, with a
fallback to `items.length` when the coercion is not finite. -/
def totalFromHost (hostObj : JsVal) (items : List JsVal) : ℚ :=
  let tv := nullishCoalesce (jsGet hostObj ("total"))
    (nullishCoalesce (jsGet hostObj ("count"))
      (nullishCoalesce (jsGet hostObj ("totalCount"))
        (some (.num (.fin (items.length : ℚ))))))
  match jsToNumber (tv.getD .null) with
  | .fin q => q
  | _ => (items.length : ℚ)

/-- The source's `normalizeListPayload` (`server.js` lines 41–65), verbatim:
arrays wrap directly; non-objects throw; else the fixed candidate probe list
is scanned; an unmatched object becomes a single row. -/
def normalizeListPayload (result : JsVal) : Except String NormPayload :=
  match result with
  | .arr xs => .ok ⟨xs, (xs.length : ℚ)⟩
  | _ =>
    if !jsTruthy result || jsTypeof result != "object" then
      .error "Invalid list payload: expected array or object"
    else
      match findListCandidate
        [("items", some result), ("data", some result), ("results", some result),
         ("rows", some result), ("projects", some result), ("items", jsGet result ("data"))] with
      | some (hostObj, items) => .ok ⟨items, totalFromHost hostObj items⟩
      | none => .ok ⟨[result], 1⟩

/-- A single probe of the claim-side normalizer: the array under `key` on
`hostObj`, when there is one. -/
def specProbe (hostObj : JsVal) (key : String) : Option (JsVal × List JsVal) :=
  match jsGet hostObj key with
  | some (.arr xs) => some (hostObj, xs)
  | _ => none

/-- The claim-side total rule: the host object's `total`, else `count`, else
`totalCount`, else `items.length`, coerced to a number, falling back to
`items.length` when the coercion is not finite. -/
def specTotalOf (hostObj : JsVal) (items : List JsVal) : ℚ :=
  let tv : JsVal :=
    match unNullish (jsGet hostObj ("total")) with
    | some v => v
    | none =>
      match unNullish (jsGet hostObj ("count")) with
      | some v => v
      | none =>
        match unNullish (jsGet hostObj ("totalCount")) with
        | some v => v
        | none => .num (.fin (items.length : ℚ))
  match jsToNumber tv with
  | .fin q => q
  | _ => (items.length : ℚ)

/-- Modelled from the claim's words (C2), independently of the source's loop:
an array wraps directly; a non-object fails; else probe `items`, `data`,
`results`, `rows`, `projects` on the top-level object, then `items` nested
under `data`, first array wins, with `specTotalOf` supplying the total;
otherwise the value itself becomes a singleton row. -/
def specNormalizeListPayload (value : JsVal) : Except String NormPayload :=
  match value with
  | .arr xs => .ok ⟨xs, (xs.length : ℚ)⟩
  | .obj _ =>
    let probed :=
      (specProbe value ("items")).orElse fun _ =>
      (specProbe value ("data")).orElse fun _ =>
      (specProbe value ("results")).orElse fun _ =>
      (specProbe value ("rows")).orElse fun _ =>
      (specProbe value ("projects")).orElse fun _ =>
      match jsGet value ("data") with
      | some d => specProbe d ("items")
      | none => none
    match probed with
    | some (hostObj, xs) => .ok ⟨xs, specTotalOf hostObj xs⟩
    | none => .ok ⟨[value], 1⟩
  | _ => .error "Invalid list payload: expected array or object"

/-! ### System state and the external collaborators -/

/-- The process-wide conversational context (`memory` in the source):
`lastProject` starts as `null`; `lastSearchItems` starts empty and is always
an array. -/
structure Memory where
  lastProject : JsVal
  lastSearchItems : List JsVal

/-- The fresh memory at process start. -/
def freshMemory : Memory := ⟨.null, []⟩

/-- The configuration surface the dispatcher reads: only whether an OpenAI
credential is configured matters to the verified behaviors (the empty string
means unconfigured, matching the source's falsiness check). -/
structure Env where
  openaiKey : String

/-- The external collaborators as response oracles.  `search` is keyed by the
`q` and `limit` query parameters of `searchFirstByName`; `list` by the numeric
`limit` of `fetchSomeProjects`; `searchList` by the assembled query-parameter
list of the search tool; `llm` by the user-message content of the completion
request.  Each returns the decoded response of `http(...)`, or a thrown
error's message. -/
structure Backend where
  search : String → String → Except String JsVal
  list : ℚ → Except String JsVal
  getById : String → Except String JsVal
  create : JsVal → Except String JsVal
  update : String → JsVal → Except String JsVal
  delete : String → Except String JsVal
  searchList : List (String × String) → Except String JsVal
  llm : String → Except String String

/-- One content block of a tool result. -/
inductive Content where
  | text (s : String)
  | json (v : JsVal)

/-- Render a normalized payload back to the JS object the search tool
returns. -/
def payloadJson (p : NormPayload) : JsVal :=
  .obj [("items", .arr p.items), ("total", .num (.fin p.total))]

/-! ### Backend helpers (`searchFirstByName`, `fetchSomeProjects`) -/

/-- The source's `searchFirstByName`: `GET /projects?q=<name>&limit=1`,
normalize, then `items[0] || null` (`none` both for an empty page and for a
falsy first item). -/
def searchFirstByName (bk : Backend) (name : String) : Except String (Option JsVal) :=
  match bk.search name ("1") with
  | .error e => .error e
  | .ok result =>
    match normalizeListPayload result with
    | .error e => .error e
    | .ok p =>
      .ok (match p.items.head? with
           | some it => if jsTruthy it then some it else none
           | none => none)

/-- The source's `fetchSomeProjects`: `GET /projects?limit=<limit>`,
normalize, return the items. -/
def fetchSomeProjects (bk : Backend) (limit : ℚ) : Except String (List JsVal) :=
  match bk.list limit with
  | .error e => .error e
  | .ok result =>
    match normalizeListPayload result with
    | .error e => .error e
    | .ok p => .ok p.items

/-! ### Identifier resolution (`projects.get` lines 237–250, `projects.delete`
lines 296–314) -/

/-- The identifier read of an entity: `e.id ?? e.projectId`. -/
def idFieldOf (e : JsVal) : Option JsVal :=
  nullishCoalesce (jsGet e ("id")) (jsGet e ("projectId"))

/-- The guard `memory.lastProject?.id` (truthiness of the id field of the
last fetched project). -/
def lastProjectIdTruthy (mem : Memory) : Bool :=
  match jsGet mem.lastProject ("id") with
  | some v => jsTruthy v
  | none => false

/-- The guard `memory.lastSearchItems?.[0]?.id`. -/
def lastSearchHeadIdTruthy (mem : Memory) : Bool :=
  match mem.lastSearchItems.head? with
  | some it =>
    match jsGet it ("id") with
    | some v => jsTruthy v
    | none => false
  | none => false

/-- Tier 1: `hasNonEmptyString(args, 'id') ? String(args.id) : null`. -/
def resolveTier1 (args : JsVal) : Option String :=
  if hasNonEmptyString args ("id") then some (jsToStringOpt (jsGet args ("id"))) else none

/-- Tier 2 (get variant): when `id` is still falsy and a non-empty
`projectName` was supplied, search the backend by name; zero (or falsy-first)
results throw the not-found error, else the first result's identifier is
taken. -/
def resolveTier2 (bk : Backend) (args : JsVal) (id1 : Option String) :
    Except String (Option String) :=
  if !strOptTruthy id1 && hasNonEmptyString args ("projectName") then
    let nm := jsToString ((jsGet args ("projectName")).getD .null)
    match searchFirstByName bk nm with
    | .error e => .error e
    | .ok none => .error ("Project not found by name: " ++ nm)
    | .ok (some found) => .ok (some (jsToStringOpt (idFieldOf found)))
  else .ok id1

/-- Tier 3: `if (!id && memory.lastProject?.id) id = String(memory.lastProject.id)`. -/
def resolveTier3 (mem : Memory) (id2 : Option String) : Option String :=
  if !strOptTruthy id2 && lastProjectIdTruthy mem then
    some (jsToString ((jsGet mem.lastProject ("id")).getD .null))
  else id2

/-- Tier 4: `if (!id && memory.lastSearchItems?.[0]?.id) id = String(memory.lastSearchItems[0].id)`. -/
def resolveTier4 (mem : Memory) (id3 : Option String) : Option String :=
  if !strOptTruthy id3 && lastSearchHeadIdTruthy mem then
    some (jsToString ((jsGet (mem.lastSearchItems.headD .null) ("id")).getD .null))
  else id3

/-- The message of the final-tier failure. -/
def invalidArgMsg : String :=
  "Provide either \"id\" or \"projectName\", or run a search/get first."

/-- Identifier resolution as performed by `projects.get` (lines 237–250). -/
def resolveProjectId (bk : Backend) (mem : Memory) (args : JsVal) : Except String String :=
  match resolveTier2 bk args (resolveTier1 args) with
  | .error e => .error e
  | .ok id2 =>
    let id4 := resolveTier4 mem (resolveTier3 mem id2)
    if strOptTruthy id4 then .ok (id4.getD "") else .error invalidArgMsg

/-- Tier 2 of `projects.delete`, which additionally records
`nameUsed = String(args.projectName)` before searching. -/
def resolveDeleteTier2 (bk : Backend) (args : JsVal) (idName : Option String × JsVal) :
    Except String (Option String × JsVal) :=
  if !strOptTruthy idName.1 && hasNonEmptyString args ("projectName") then
    let nm := jsToString ((jsGet args ("projectName")).getD .null)
    match searchFirstByName bk nm with
    | .error e => .error e
    | .ok none => .error ("Project not found by name: " ++ nm)
    | .ok (some found) => .ok (some (jsToStringOpt (idFieldOf found)), .str nm)
  else .ok idName

/-- Tier 3 of `projects.delete`: also
`nameUsed = memory.lastProject.projectName || nameUsed`. -/
def resolveDeleteTier3 (mem : Memory) (idName : Option String × JsVal) :
    Option String × JsVal :=
  if !strOptTruthy idName.1 && lastProjectIdTruthy mem then
    (some (jsToString ((jsGet mem.lastProject ("id")).getD .null)),
     truthyOr (jsGet mem.lastProject ("projectName")) idName.2)
  else idName

/-- Tier 4 of `projects.delete`, reading the first last-search item. -/
def resolveDeleteTier4 (mem : Memory) (idName : Option String × JsVal) :
    Option String × JsVal :=
  if !strOptTruthy idName.1 && lastSearchHeadIdTruthy mem then
    (some (jsToString ((jsGet (mem.lastSearchItems.headD .null) ("id")).getD .null)),
     truthyOr (jsGet (mem.lastSearchItems.headD .null) ("projectName")) idName.2)
  else idName

/-- Identifier-plus-display-name resolution as performed by `projects.delete`
(lines 296–314); the second component is the `nameUsed` variable (`null` when
no tier supplied a name). -/
def resolveDeleteTarget (bk : Backend) (mem : Memory) (args : JsVal) :
    Except String (String × JsVal) :=
  match resolveDeleteTier2 bk args (resolveTier1 args, .null) with
  | .error e => .error e
  | .ok idName2 =>
    let idName4 := resolveDeleteTier4 mem (resolveDeleteTier3 mem idName2)
    if strOptTruthy idName4.1 then .ok (idName4.1.getD "", idName4.2)
    else .error invalidArgMsg

/-! ### The tool handlers and dispatcher (`runTool`, lines 199–372) -/

/-- Truthiness of `project?.notes`. -/
def notesTruthy (p : JsVal) : Bool :=
  match jsGet p ("notes") with
  | some v => jsTruthy v
  | none => false

/-- One optional body field: `...(args.k ? { k: String(args.k) } : {})`. -/
def optField (args : JsVal) (k : String) : List (String × JsVal) :=
  match jsGet args k with
  | some v => if jsTruthy v then [(k, .str (jsToString v))] else []
  | none => []

/-- The batch-size computation of `projects.deleteRandom`:
`Number.isFinite(args.limit) ? Math.max(1, Number(args.limit)) : 25`. -/
def batchLimitOf (args : JsVal) : ℚ :=
  match jsGet args ("limit") with
  | some (.num (.fin q)) => max 1 q
  | _ => 25

/-- The query parameters assembled by `projects.search` (lines 349–354). -/
def searchParams (args : JsVal) : List (String × String) :=
  (["q", "zoning_code", "zone_type", "address", "city", "state"].filterMap fun k =>
    match jsGet args k with
    | some v => if jsTruthy v then some (k, jsToString v) else none
    | none => none)
  ++ (match jsGet args ("page") with
      | some (.num (.fin q)) => [("page", finNumToString q)]
      | _ => [])
  ++ (match jsGet args ("limit") with
      | some (.num (.fin q)) => [("limit", finNumToString q)]
      | _ => [])

/-- The `ai.summarize` handler. -/
def toolSummarize (env : Env) (bk : Backend) (mem : Memory) (args : JsVal) :
    Except (String × Memory) (Memory × List Content) :=
  match requireString args ("text") with
  | .error e => .error (e, mem)
  | .ok input =>
    if env.openaiKey = "" then
      .error ("OpenAI is not configured. Set OPENAI_API_KEY in .env.", mem)
    else
      match bk.llm input with
      | .error e => .error (e, mem)
      | .ok summary => .ok (mem, [.text summary])

/-- The `projects.create` handler (lines 214–233). -/
def toolCreate (bk : Backend) (mem : Memory) (args : JsVal) :
    Except (String × Memory) (Memory × List Content) :=
  match requireString args ("projectName") with
  | .error e => .error (e, mem)
  | .ok projectName =>
    match requireString args ("address") with
    | .error e => .error (e, mem)
    | .ok address =>
      match requireString args ("zoningCode") with
      | .error e => .error (e, mem)
      | .ok zoningCode =>
        match requireString args ("zoneType") with
        | .error e => .error (e, mem)
        | .ok zoneType =>
          let body : JsVal := .obj
            ([("projectName", .str projectName), ("address", .str address),
              ("zoningCode", .str zoningCode), ("zoneType", .str zoneType)]
             ++ optField args ("notes"))
          match bk.create body with
          | .error e => .error (e, mem)
          | .ok created =>
            .ok ({ mem with lastProject := if jsTruthy created then created else .null },
                 [.json created])

/-- The `projects.get` handler (lines 236–271), including the best-effort
notes-summary sub-step whose failure is attached to the entity instead of
propagating. -/
def toolGet (env : Env) (bk : Backend) (mem : Memory) (args : JsVal) :
    Except (String × Memory) (Memory × List Content) :=
  match resolveProjectId bk mem args with
  | .error e => .error (e, mem)
  | .ok id =>
    match bk.getById id with
    | .error e => .error (e, mem)
    | .ok project =>
      let project' :=
        if env.openaiKey != "" && notesTruthy project then
          match bk.llm (jsToString ((jsGet project ("notes")).getD .null)) with
          | .ok summary => objSet project ("notes_summary") (.str summary)
          | .error e => objSet project ("notes_summary_error") (.str e)
        else project
      .ok ({ mem with lastProject := if jsTruthy project' then project' else .null },
           [.json project'])

/-- The `projects.update` handler (lines 274–292). -/
def toolUpdate (bk : Backend) (mem : Memory) (args : JsVal) :
    Except (String × Memory) (Memory × List Content) :=
  match requireString args ("id") with
  | .error e => .error (e, mem)
  | .ok id =>
    let body : JsVal := .obj
      (optField args ("projectName") ++ optField args ("address")
       ++ optField args ("zoningCode") ++ optField args ("zoneType")
       ++ optField args ("notes"))
    match bk.update id body with
    | .error e => .error (e, mem)
    | .ok updated =>
      .ok ({ mem with lastProject := if jsTruthy updated then updated else .null },
           [.json updated])

/-- The `projects.delete` handler (lines 295–327). -/
def toolDelete (bk : Backend) (mem : Memory) (args : JsVal) :
    Except (String × Memory) (Memory × List Content) :=
  match resolveDeleteTarget bk mem args with
  | .error e => .error (e, mem)
  | .ok idName =>
    match bk.delete idName.1 with
    | .error e => .error (e, mem)
    | .ok _ =>
      let humanMsg :=
        if jsTruthy idName.2 then
          "Deleted project \"" ++ jsToString idName.2 ++ "\" (id: " ++ idName.1 ++ ")."
        else "Deleted project " ++ idName.1 ++ "."
      .ok ({ mem with lastProject := .null }, [.text humanMsg])

/-- The `projects.deleteRandom` handler (lines 330–345).  The random pick
`Math.floor(Math.random() * items.length)` is modelled by `rand % items.length`
for an arbitrary injected `rand : Nat` — both range over exactly the valid
indices of the non-empty batch. -/
def toolDeleteRandom (bk : Backend) (rand : Nat) (mem : Memory) (args : JsVal) :
    Except (String × Memory) (Memory × List Content) :=
  match fetchSomeProjects bk (batchLimitOf args) with
  | .error e => .error (e, mem)
  | .ok items =>
    if items.isEmpty then .error ("No projects available to delete.", mem)
    else
      let pick := items.getD (rand % items.length) .null
      let id := jsToStringOpt (idFieldOf pick)
      let name := nnD (jsGet pick ("projectName")) (nnD (jsGet pick ("name")) (.str "(unnamed)"))
      match bk.delete id with
      | .error e => .error (e, mem)
      | .ok _ =>
        .ok ({ mem with lastProject := .null },
             [.text ("Deleted random project \"" ++ jsToString name ++ "\" (id: " ++ id ++ ").")])

/-- The `projects.search` handler (lines 348–367). -/
def toolSearch (bk : Backend) (mem : Memory) (args : JsVal) :
    Except (String × Memory) (Memory × List Content) :=
  match bk.searchList (searchParams args) with
  | .error e => .error (e, mem)
  | .ok result =>
    match normalizeListPayload result with
    | .error e => .error (e, mem)
    | .ok payload =>
      .ok ({ mem with lastSearchItems := payload.items }, [.json (payloadJson payload)])

/-- The dispatcher `runTool(name, args)`.  Errors carry the memory state at
throw time, so theorems can speak about what a failed invocation did to the
conversational context. -/
def runTool (env : Env) (bk : Backend) (rand : Nat) (mem : Memory)
    (name : String) (args : JsVal) :
    Except (String × Memory) (Memory × List Content) :=
  if name = "ai.summarize" then toolSummarize env bk mem args
  else if name = "projects.create" then toolCreate bk mem args
  else if name = "projects.get" then toolGet env bk mem args
  else if name = "projects.update" then toolUpdate bk mem args
  else if name = "projects.delete" then toolDelete bk mem args
  else if name = "projects.deleteRandom" then toolDeleteRandom bk rand mem args
  else if name = "projects.search" then toolSearch bk mem args
  else .error ("Unknown tool: " ++ name, mem)

/-! ### Human renderer for search results (`mdEscape`, `renderSearch`,
lines 377–397) -/

/-- Escape every literal pipe as `\|` (the effect of
`.replace(/\|/g, '\\|')`). -/
def escapePipes (s : String) : String :=
  String.mk (s.toList.foldr (fun c acc => if c = '|' then '\\' :: '|' :: acc else c :: acc) [])

/-- The source's `mdEscape`: `String(s ?? '')` with pipes escaped
(`none` = `undefined`). -/
def mdEscape (v : Option JsVal) : String :=
  escapePipes (jsToString (nnD v (.str "")))

/-- The JS comparison `v > b` for a numeric right operand: both sides coerce
to number, `NaN` compares false. -/
def jsGtNum (v : JsVal) (b : ℚ) : Bool :=
  match jsToNumber v with
  | .fin q => b < q
  | .posInf => true
  | _ => false

/-- The JS strict comparison `v === 1`. -/
def jsStrictEqOne (v : JsVal) : Bool :=
  match v with
  | .num (.fin q) => q == 1
  | _ => false

/-- The fixed table header of `renderSearch`. -/
def searchTableHead : String :=
  "| Project | Address | Zoning | Zone Type | ID |\n|---|---|---|---|---|"

/-- One table row of `renderSearch`: the five recognized fields with
alternate spellings, em-dash placeholders, pipe escaping, and a code-fenced
identifier. -/
def renderRow (p : JsVal) : String :=
  let name := nnD (jsGet p ("projectName")) (nnD (jsGet p ("name")) (.str "—"))
  let addr := nnD (jsGet p ("address")) (.str "—")
  let zc := nnD (jsGet p ("zoningCode")) (nnD (jsGet p ("zoning_code")) (.str "—"))
  let zt := nnD (jsGet p ("zoneType")) (nnD (jsGet p ("zone_type")) (.str "—"))
  let idv := nnD (jsGet p ("id")) (nnD (jsGet p ("projectId")) (.str "—"))
  "| " ++ mdEscape (some name) ++ " | " ++ mdEscape (some addr) ++ " | "
    ++ mdEscape (some zc) ++ " | " ++ mdEscape (some zt) ++ " | `"
    ++ mdEscape (some idv) ++ "` |"

/-- The source's `renderSearch`.  The destructuring defaults apply on absent
properties; the body's `items.length` / `items.slice` are array operations, so
the embedding reads the `items` property as an array (the renderer is only
ever fed normalized payloads, where it is one; a non-array `items` is read as
empty). -/
def renderSearch (json : JsVal) : String :=
  let base := if jsTruthy json then json else .obj []
  let itemsList : List JsVal :=
    match (jsGet base ("items")).getD (.arr []) with
    | .arr xs => xs
    | _ => []
  let totalV : JsVal := (jsGet base ("total")).getD (.num (.fin (itemsList.length : ℚ)))
  if itemsList.isEmpty then "No matching projects found."
  else
    let rows := String.intercalate "\n" ((itemsList.take 5).map renderRow)
    let more :=
      if jsGtNum totalV 5 then "\n\n_Showing 5 of " ++ jsToString totalV ++ " results._"
      else ""
    "**Found " ++ jsToString totalV ++ " project"
      ++ (if jsStrictEqOne totalV then "" else "s")
      ++ "**\n\n" ++ searchTableHead ++ "\n" ++ rows ++ more

/-! ### The `POST /chat` router reply handling (lines 536–545) -/

/-- Skip JSON insignificant whitespace. -/
def skipJsonWs : List Char → List Char
  | [] => []
  | c :: rest =>
    if c = ' ' || c = '\t' || c = '\n' || c = '\r' then skipJsonWs rest else c :: rest

/-- Decode a single-character JSON escape. -/
def jsonEscapeChar : Char → Option Char
  | '"' => some '"'
  | '\\' => some '\\'
  | '/' => some '/'
  | 'b' => some (Char.ofNat 8)
  | 'f' => some (Char.ofNat 12)
  | 'n' => some '\n'
  | 'r' => some '\r'
  | 't' => some '\t'
  | _ => none

/-- Parse the body of a JSON string after the opening quote. -/
def parseJStringAux : List Char → List Char → Option (String × List Char)
  | acc, '"' :: rest => some (String.mk acc.reverse, rest)
  | acc, '\\' :: 'u' :: a :: b :: c :: d :: rest =>
    (match hexRunVal [a, b, c, d] none with
     | some n => parseJStringAux (Char.ofNat n :: acc) rest
     | none => none)
  | acc, '\\' :: e :: rest =>
    (match jsonEscapeChar e with
     | some ch => parseJStringAux (ch :: acc) rest
     | none => none)
  | acc, c :: rest => parseJStringAux (c :: acc) rest
  | _, [] => none

/-- Parse the unsigned part of a JSON number (RFC 8259 grammar: no leading
zeros, optional fraction and exponent) into an exact rational. -/
def parseJNumberAbs (cs : List Char) : Option (ℚ × List Char) :=
  let (intDs, cs2) := splitDigits cs
  if intDs.isEmpty then none
  else if intDs.length > 1 && intDs.headD '0' = '0' then none
  else
    let (fracDs, cs3, fracOk) :=
      match cs2 with
      | '.' :: r =>
        let (ds, r2) := splitDigits r
        (ds, r2, !ds.isEmpty)
      | _ => ([], cs2, true)
    if !fracOk then none
    else
      let m : ℚ := (digitRunVal intDs : ℚ) + (digitRunVal fracDs : ℚ) / (10 : ℚ) ^ fracDs.length
      match cs3 with
      | 'e' :: r | 'E' :: r =>
        let (esign, r1) :=
          match r with
          | '-' :: r' => (true, r')
          | '+' :: r' => (false, r')
          | _ => (false, r)
        let (eds, r2) := splitDigits r1
        if eds.isEmpty then none
        else
          let ev : Int := if esign then -(digitRunVal eds : Int) else (digitRunVal eds : Int)
          some (mulPow10 m ev, r2)
      | _ => some (m, cs3)

/-- Parse a JSON number, handling the optional leading minus sign. -/
def parseJNumber (cs : List Char) : Option (ℚ × List Char) :=
  match cs with
  | '-' :: tail =>
    match parseJNumberAbs tail with
    | some (q, r) => some (-q, r)
    | none => none
  | _ => parseJNumberAbs cs

mutual
/-- Fuel-bounded JSON value parsing (`JSON.parse` model); the fuel only
bounds nesting depth and is always supplied large enough. -/
def parseJValue : Nat → List Char → Option (JsVal × List Char)
  | 0, _ => none
  | fuel + 1, cs =>
    match skipJsonWs cs with
    | 'n' :: 'u' :: 'l' :: 'l' :: rest => some (.null, rest)
    | 't' :: 'r' :: 'u' :: 'e' :: rest => some (.bool true, rest)
    | 'f' :: 'a' :: 'l' :: 's' :: 'e' :: rest => some (.bool false, rest)
    | '"' :: rest =>
      (match parseJStringAux [] rest with
       | some (s, r) => some (.str s, r)
       | none => none)
    | '[' :: rest =>
      (match skipJsonWs rest with
       | ']' :: r2 => some (.arr [], r2)
       | r1 =>
         match parseJArrayItems fuel r1 with
         | some (xs, r2) => some (.arr xs, r2)
         | none => none)
    | '{' :: rest =>
      (match skipJsonWs rest with
       | '}' :: r2 => some (.obj [], r2)
       | r1 =>
         match parseJObjectItems fuel r1 with
         | some (ms, r2) => some (.obj ms, r2)
         | none => none)
    | other =>
      (match parseJNumber other with
       | some (q, r) => some (.num (.fin q), r)
       | none => none)

/-- Comma-separated JSON array elements up to the closing bracket. -/
def parseJArrayItems : Nat → List Char → Option (List JsVal × List Char)
  | 0, _ => none
  | fuel + 1, cs =>
    match parseJValue fuel cs with
    | none => none
    | some (v, r) =>
      match skipJsonWs r with
      | ',' :: r2 =>
        (match parseJArrayItems fuel r2 with
         | some (xs, r3) => some (v :: xs, r3)
         | none => none)
      | ']' :: r2 => some ([v], r2)
      | _ => none

/-- Comma-separated JSON object members up to the closing brace. -/
def parseJObjectItems : Nat → List Char → Option (List (String × JsVal) × List Char)
  | 0, _ => none
  | fuel + 1, cs =>
    match skipJsonWs cs with
    | '"' :: rest =>
      (match parseJStringAux [] rest with
       | none => none
       | some (k, r) =>
         match skipJsonWs r with
         | ':' :: r2 =>
           (match parseJValue fuel r2 with
            | none => none
            | some (v, r3) =>
              match skipJsonWs r3 with
              | ',' :: r4 =>
                (match parseJObjectItems fuel r4 with
                 | some (ms, r5) => some ((k, v) :: ms, r5)
                 | none => none)
              | '}' :: r4 => some ([(k, v)], r4)
              | _ => none)
         | _ => none)
    | _ => none
end

/-- The model of `JSON.parse`: one value, then only whitespace may remain;
`none` models a thrown `SyntaxError`. -/
def jsonParse (s : String) : Option JsVal :=
  match parseJValue (2 * s.length + 2) s.toList with
  | some (v, rest) => if (skipJsonWs rest).isEmpty then some v else none
  | none => none

/-- Index of the last `'}'`, if any. -/
def lastCloseIdx : List Char → Option Nat
  | [] => none
  | c :: rest =>
    match lastCloseIdx rest with
    | some j => some (j + 1)
    | none => if c = '}' then some 0 else none

/-- Operational model of `text.match(/\x7b[\s\S]*\x7d/)`: the engine tries
each start position left to right; at an opening brace the greedy `[\s\S]*`
backtracks to the last closing brace anywhere to the right, and if there is
none the scan moves on. -/
def regexBraceScan : List Char → Option (List Char)
  | [] => none
  | c :: rest =>
    if c = '{' then
      match lastCloseIdx rest with
      | some j => some ('{' :: rest.take (j + 1))
      | none => regexBraceScan rest
    else regexBraceScan rest

/-- Index of the first `'{'`, if any. -/
def firstOpenIdx : List Char → Option Nat
  | [] => none
  | c :: rest => if c = '{' then some 0 else (firstOpenIdx rest).map (· + 1)

/-- Declarative description of the greedy regex: the span from the first
`'{'` to the last `'}'` when the former precedes the latter. -/
def braceSpanFirstLast (cs : List Char) : Option (List Char) :=
  match firstOpenIdx cs, lastCloseIdx cs with
  | some i, some j => if i < j then some ((cs.drop i).take (j - i + 1)) else none
  | _, _ => none

/-- Modelled from the claim's words (C8): scan to the first `'{'`, then take
characters until the braces balance. -/
def balancedFrom : List Char → Nat → List Char → Option (List Char)
  | [], _, _ => none
  | c :: rest, depth, acc =>
    if c = '}' then
      if depth = 1 then some (('}' :: acc).reverse)
      else balancedFrom rest (depth - 1) ('}' :: acc)
    else if c = '{' then balancedFrom rest (depth + 1) ('{' :: acc)
    else balancedFrom rest depth (c :: acc)

/-- Modelled from the claim's words (C8): the first balanced-brace substring
of the reply, if any. -/
def specFirstBalancedBrace (s : String) : Option String :=
  (go s.toList).map String.mk
where go : List Char → Option (List Char)
  | [] => none
  | c :: rest => if c = '{' then balancedFrom rest 1 ['{'] else go rest

/-- How a router reply can fail to yield a plan: a propagated `SyntaxError`
from `JSON.parse` of the extracted span (engine-specific message), or the
handler's own `'Router did not return JSON'` error. -/
inductive RouterFailure where
  | syntaxErr
  | noJson

/-- The reply handling of `POST /chat` (lines 537–544): parse the whole
reply; on failure extract with the greedy brace regex, failing `noJson` when
it does not match, and parse the extracted span, propagating its
`SyntaxError` when that parse fails too. -/
def routeParsePlan (toolPlanText : String) : Except RouterFailure JsVal :=
  match jsonParse toolPlanText with
  | some plan => .ok plan
  | none =>
    match regexBraceScan toolPlanText.toList with
    | none => .error .noJson
    | some m =>
      match jsonParse (String.mk m) with
      | some plan => .ok plan
      | none => .error .syntaxErr

/-! ### Concrete fixtures used by witnesses and counterexamples -/

/-- A backend whose every oracle fails; used where no backend call should be
consulted. -/
def bkUnused : Backend :=
  ⟨fun _ _ => .error "unreachable", fun _ => .error "unreachable",
   fun _ => .error "unreachable", fun _ => .error "unreachable",
   fun _ _ => .error "unreachable", fun _ => .error "unreachable",
   fun _ => .error "unreachable", fun _ => .error "unreachable"⟩

/-- Configuration with no LLM credential. -/
def envNoKey : Env := ⟨""⟩

/-- Configuration with an LLM credential present. -/
def envKeyed : Env := ⟨"sk-test"⟩

/-- A memory whose last project carries its identifier only under the
alternate `projectId` spelling. -/
def memOnlyProjectId : Memory := ⟨.obj [("projectId", .str "p1")], []⟩

/-- An entity carrying only the alternate identifier spelling. -/
def entPid : JsVal := .obj [("projectId", .str "p9"), ("projectName", .str "Elm")]

/-- A backend that finds `entPid` by search and by batch listing, and whose
delete succeeds. -/
def bkPid : Backend :=
  ⟨fun _ _ => .ok (.obj [("items", .arr [entPid])]), fun _ => .ok (.arr [entPid]),
   fun _ => .error "unreachable", fun _ => .error "unreachable",
   fun _ _ => .error "unreachable", fun _ => .ok .null,
   fun _ => .error "unreachable", fun _ => .error "unreachable"⟩

/-- An entity carrying notes, for the summary sub-step. -/
def entNotes : JsVal := .obj [("id", .str "7"), ("notes", .str "some notes")]

/-- A backend whose entity fetch succeeds with `entNotes` but whose LLM call
fails. -/
def bkNotes : Backend :=
  ⟨fun _ _ => .error "unreachable", fun _ => .error "unreachable",
   fun _ => .ok entNotes, fun _ => .error "unreachable",
   fun _ _ => .error "unreachable", fun _ => .error "unreachable",
   fun _ => .error "unreachable", fun _ => .error "rate limited"⟩

/-- The entity a creating backend returns. -/
def entCreated : JsVal := .obj [("id", .str "n1")]

/-- A backend whose create succeeds with `entCreated`. -/
def bkCreate : Backend :=
  ⟨fun _ _ => .error "unreachable", fun _ => .error "unreachable",
   fun _ => .error "unreachable", fun _ => .ok entCreated,
   fun _ _ => .error "unreachable", fun _ => .error "unreachable",
   fun _ => .error "unreachable", fun _ => .error "unreachable"⟩

/-- A backend whose search yields an empty page and whose batch listing is
empty. -/
def bkEmpty : Backend :=
  ⟨fun _ _ => .ok (.obj [("items", .arr [])]), fun _ => .ok (.arr []),
   fun _ => .error "unreachable", fun _ => .error "unreachable",
   fun _ _ => .error "unreachable", fun _ => .error "unreachable",
   fun _ => .ok (.obj [("items", .arr []), ("total", .num (.fin 0))]),
   fun _ => .error "unreachable"⟩

/-- A memory with a populated search-result list (to be overwritten). -/
def memWithItems : Memory := ⟨.null, [entPid]⟩

/-- Valid arguments for `projects.create`. -/
def argsCreate : JsVal :=
  .obj [("projectName", .str "P"), ("address", .str "A"),
        ("zoningCode", .str "Z"), ("zoneType", .str "T")]

/-- The spec's scenario entity for search rendering. -/
def oakEntity : JsVal :=
  .obj [("id", .str "1"), ("projectName", .str "Oak St"), ("address", .str "1 Oak"),
        ("zoningCode", .str "R1"), ("zoneType", .str "Residential")]

/-- A normalized search payload as a JS value. -/
def searchPayloadJson (xs : List JsVal) (t : ℚ) : JsVal :=
  .obj [("items", .arr xs), ("total", .num (.fin t))]

/-- A router reply with prose around two JSON objects: the greedy regex spans
both, the balanced-brace reading only the first. -/
def routerReplyX : String := "a\x7b\"tool\":\"x\"\x7db\x7b\"y\":0\x7d"

/-! ### Helper lemmas -/

/-- The code's total chain coincides with the claim-side total rule. -/
theorem totalFromHost_eq_spec (h : JsVal) (items : List JsVal) :
    totalFromHost h items = specTotalOf h items := by
  unfold totalFromHost specTotalOf nullishCoalesce
  cases h1 : unNullish (jsGet h ("total")) <;>
    cases h2 : unNullish (jsGet h ("count")) <;>
      cases h3 : unNullish (jsGet h ("totalCount")) <;>
        simp [h1, h2, h3, Option.getD]

/-- One loop step of the candidates scan on a genuine object host is the
corresponding claim-side probe. -/
theorem findListCandidate_cons_obj (fs : List (String × JsVal)) (k : String)
    (rest : List (String × Option JsVal)) :
    findListCandidate ((k, some (.obj fs)) :: rest)
      = (specProbe (.obj fs) k).orElse fun _ => findListCandidate rest := by
  simp only [findListCandidate, specProbe, jsTruthy, jsTypeof]
  cases h : jsGet (.obj fs) k with
  | none => simp [h, Option.orElse]
  | some w => cases w <;> simp [h, Option.orElse]

/-- The trailing `data`-nested candidate is the claim-side nested probe. -/
theorem findListCandidate_data (o : Option JsVal) :
    findListCandidate [("items", o)]
      = (match o with
         | some d => specProbe d ("items")
         | none => none) := by
  cases o with
  | none => rfl
  | some d =>
    cases d with
    | null => rfl
    | bool b => simp [findListCandidate, specProbe, jsTruthy, jsTypeof, jsGet]
    | num n => simp [findListCandidate, specProbe, jsTruthy, jsTypeof, jsGet]
    | str s => simp [findListCandidate, specProbe, jsTruthy, jsTypeof, jsGet]
    | arr xs => simp [findListCandidate, specProbe, jsTruthy, jsTypeof, jsGet]
    | obj gs =>
      simp only [findListCandidate, specProbe, jsTruthy, jsTypeof]
      cases h : jsGet (.obj gs) ("items") with
      | none => simp [h]
      | some w => cases w <;> simp [h]

/-- C2: `normalizeListPayload` behaves exactly as the claim describes it,
which is captured by the claim-side normalizer `specNormalizeListPayload`
(array wrap; non-object failure; ordered probes with the documented total
rule; singleton-row leniency). -/
theorem claim_C2_normalizeListPayload (v : JsVal) :
    normalizeListPayload v = specNormalizeListPayload v := by
  cases v with
  | arr xs => rfl
  | null => rfl
  | bool b => simp [normalizeListPayload, specNormalizeListPayload, jsTypeof]
  | num n => simp [normalizeListPayload, specNormalizeListPayload, jsTypeof]
  | str s => simp [normalizeListPayload, specNormalizeListPayload, jsTypeof]
  | obj fs =>
    unfold normalizeListPayload specNormalizeListPayload
    simp only [jsTruthy, jsTypeof]
    rw [findListCandidate_cons_obj, findListCandidate_cons_obj,
      findListCandidate_cons_obj, findListCandidate_cons_obj,
      findListCandidate_cons_obj, findListCandidate_data]
    cases h1 : specProbe (.obj fs) ("items") with
    | some pr => simp [totalFromHost_eq_spec, Option.orElse]
    | none =>
      cases h2 : specProbe (.obj fs) ("data") with
      | some pr => simp [h2, totalFromHost_eq_spec, Option.orElse]
      | none =>
        cases h3 : specProbe (.obj fs) ("results") with
        | some pr => simp [h2, h3, totalFromHost_eq_spec, Option.orElse]
        | none =>
          cases h4 : specProbe (.obj fs) ("rows") with
          | some pr => simp [h2, h3, h4, totalFromHost_eq_spec, Option.orElse]
          | none =>
            cases h5 : specProbe (.obj fs) ("projects") with
            | some pr => simp [h2, h3, h4, h5, totalFromHost_eq_spec, Option.orElse]
            | none =>
              cases h6 : jsGet (.obj fs) ("data") with
              | none => simp [h2, h3, h4, h5, h6, Option.orElse]
              | some d =>
                cases h7 : specProbe d ("items") with
                | some pr =>
                  simp [h2, h3, h4, h5, h6, h7, totalFromHost_eq_spec, Option.orElse]
                | none => simp [h2, h3, h4, h5, h6, h7, Option.orElse]

/-- A successful `hasNonEmptyString` guard means the property is a string
with non-whitespace content. -/
theorem hasNonEmptyString_spec (args : JsVal) (k : String)
    (h : hasNonEmptyString args k = true) :
    ∃ s, jsGet args k = some (.str s) ∧ s ≠ "" := by
  unfold hasNonEmptyString at h
  cases hg : jsGet args k with
  | none => rw [hg] at h; simp at h
  | some v =>
    cases v with
    | str s =>
      refine ⟨s, rfl, ?_⟩
      rw [hg] at h
      simp at h
      intro hs
      subst hs
      rw [show jsTrim "" = "" from rfl] at h
      simp at h
    | null => rw [hg] at h; simp at h
    | bool b => rw [hg] at h; simp at h
    | num n => rw [hg] at h; simp at h
    | arr xs => rw [hg] at h; simp at h
    | obj fs => rw [hg] at h; simp at h

/-- The delete-variant tier 2 computes the same identifier outcome as the
get-variant tier 2 (it only adds the `nameUsed` bookkeeping). -/
theorem resolveDeleteTier2_fst (bk : Backend) (args : JsVal) (id1 : Option String)
    (nm0 : JsVal) :
    Except.map Prod.fst (resolveDeleteTier2 bk args (id1, nm0))
      = resolveTier2 bk args id1 := by
  unfold resolveDeleteTier2 resolveTier2
  by_cases hg : (!strOptTruthy id1 && hasNonEmptyString args ("projectName")) = true
  · simp only [hg, if_true]
    cases hs : searchFirstByName bk (jsToString ((jsGet args ("projectName")).getD .null)) with
    | error e => simp [Except.map]
    | ok o => cases o <;> simp [Except.map]
  · simp only [Bool.not_eq_true] at hg
    simp [hg, Except.map]

/-- The delete-variant tier 3 computes the same identifier as the
get-variant tier 3. -/
theorem resolveDeleteTier3_fst (mem : Memory) (idName : Option String × JsVal) :
    (resolveDeleteTier3 mem idName).1 = resolveTier3 mem idName.1 := by
  unfold resolveDeleteTier3 resolveTier3
  by_cases hg : (!strOptTruthy idName.1 && lastProjectIdTruthy mem) = true
  · simp [hg]
  · simp only [Bool.not_eq_true] at hg
    simp [hg]

/-- The delete-variant tier 4 computes the same identifier as the
get-variant tier 4. -/
theorem resolveDeleteTier4_fst (mem : Memory) (idName : Option String × JsVal) :
    (resolveDeleteTier4 mem idName).1 = resolveTier4 mem idName.1 := by
  unfold resolveDeleteTier4 resolveTier4
  by_cases hg : (!strOptTruthy idName.1 && lastSearchHeadIdTruthy mem) = true
  · simp [hg]
  · simp only [Bool.not_eq_true] at hg
    simp [hg]

/-- C1: identifier resolution for `projects.get` and `projects.delete`
follows the strict tier order.  Conjuncts, in order: (1) a non-empty `id`
argument wins, for every backend and memory (so no later tier and no network
call is consulted); (2) a non-empty `projectName` triggers the by-name search,
failing not-found on an empty result, adopting the first result's identifier
on success (independently of memory), and propagating search errors; (3) else
a truthy `lastProject.id` is used, for every backend; (4) else a truthy first
`lastSearchItems` identifier is used; (5) else the invalid-argument error is
thrown; and (6) the delete-variant resolver computes identifier outcomes
identical to the get-variant resolver. -/
theorem claim_C1_resolution_order :
    (∀ bk mem args, hasNonEmptyString args ("id") = true →
        resolveProjectId bk mem args = .ok (jsToStringOpt (jsGet args ("id"))))
  ∧ (∀ bk mem mem' args s, hasNonEmptyString args ("id") = false →
        jsGet args ("projectName") = some (.str s) → s ≠ "" → jsTrim s ≠ "" →
        (searchFirstByName bk s = .ok none →
            resolveProjectId bk mem args = .error ("Project not found by name: " ++ s))
        ∧ (∀ found, searchFirstByName bk s = .ok (some found) →
            jsToStringOpt (idFieldOf found) ≠ "" →
            resolveProjectId bk mem args = .ok (jsToStringOpt (idFieldOf found))
            ∧ resolveProjectId bk mem args = resolveProjectId bk mem' args)
        ∧ (∀ e, searchFirstByName bk s = .error e →
            resolveProjectId bk mem args = .error e))
  ∧ (∀ bk bk' mem args, hasNonEmptyString args ("id") = false →
        hasNonEmptyString args ("projectName") = false →
        lastProjectIdTruthy mem = true →
        jsToString ((jsGet mem.lastProject ("id")).getD .null) ≠ "" →
        resolveProjectId bk mem args
          = .ok (jsToString ((jsGet mem.lastProject ("id")).getD .null))
        ∧ resolveProjectId bk mem args = resolveProjectId bk' mem args)
  ∧ (∀ bk mem args, hasNonEmptyString args ("id") = false →
        hasNonEmptyString args ("projectName") = false →
        lastProjectIdTruthy mem = false →
        lastSearchHeadIdTruthy mem = true →
        jsToString ((jsGet (mem.lastSearchItems.headD .null) ("id")).getD .null) ≠ "" →
        resolveProjectId bk mem args
          = .ok (jsToString ((jsGet (mem.lastSearchItems.headD .null) ("id")).getD .null)))
  ∧ (∀ bk mem args, hasNonEmptyString args ("id") = false →
        hasNonEmptyString args ("projectName") = false →
        lastProjectIdTruthy mem = false →
        lastSearchHeadIdTruthy mem = false →
        resolveProjectId bk mem args = .error invalidArgMsg)
  ∧ (∀ bk mem args, Except.map Prod.fst (resolveDeleteTarget bk mem args)
        = resolveProjectId bk mem args) := by
  refine ⟨?_, ?_, ?_, ?_, ?_, ?_⟩
  · intro bk mem args h
    obtain ⟨s, hs, hne⟩ := hasNonEmptyString_spec args ("id") h
    unfold resolveProjectId resolveTier1 resolveTier2 resolveTier3 resolveTier4
    rw [h, hs]
    simp [jsToStringOpt, jsToString, strOptTruthy, hne]
  · intro bk mem mem' args s hid hpn hne htr
    have hhas : hasNonEmptyString args ("projectName") = true := by
      unfold hasNonEmptyString
      rw [hpn]
      simp [htr]
    have hid1 : resolveTier1 args = none := by unfold resolveTier1; rw [hid]; simp
    have hnm : jsToString ((jsGet args ("projectName")).getD .null) = s := by
      rw [hpn]; rfl
    refine ⟨?_, ?_, ?_⟩
    · intro hsearch
      unfold resolveProjectId
      rw [hid1]
      unfold resolveTier2
      rw [hnm]
      simp [strOptTruthy, hhas, hsearch]
    · intro found hsearch hne2
      have key : ∀ m0 : Memory, resolveProjectId bk m0 args
          = .ok (jsToStringOpt (idFieldOf found)) := by
        intro m0
        unfold resolveProjectId
        rw [hid1]
        unfold resolveTier2
        rw [hnm]
        simp only [strOptTruthy, hhas, hsearch, Bool.not_false, Bool.and_self, if_true]
        unfold resolveTier3 resolveTier4
        simp [strOptTruthy, bne_iff_ne, hne2]
      exact ⟨key mem, (key mem).trans (key mem').symm⟩
    · intro e hsearch
      unfold resolveProjectId
      rw [hid1]
      unfold resolveTier2
      rw [hnm]
      simp [strOptTruthy, hhas, hsearch]
  · intro bk bk' mem args hid hpn hlast hne
    have hid1 : resolveTier1 args = none := by unfold resolveTier1; rw [hid]; simp
    have key : ∀ bk0 : Backend, resolveProjectId bk0 mem args
        = .ok (jsToString ((jsGet mem.lastProject ("id")).getD .null)) := by
      intro bk0
      unfold resolveProjectId
      rw [hid1]
      unfold resolveTier2
      rw [hpn]
      simp only [Bool.and_false, Bool.false_eq_true, if_false]
      unfold resolveTier3
      rw [hlast]
      simp only [strOptTruthy, Bool.not_false, Bool.true_and, if_true]
      unfold resolveTier4
      simp [strOptTruthy, hne]
    exact ⟨key bk, (key bk).trans (key bk').symm⟩
  · intro bk mem args hid hpn hlast hhead hne
    have hid1 : resolveTier1 args = none := by unfold resolveTier1; rw [hid]; simp
    unfold resolveProjectId
    rw [hid1]
    unfold resolveTier2
    rw [hpn]
    simp only [Bool.and_false, Bool.false_eq_true, if_false]
    unfold resolveTier3
    rw [hlast]
    simp only [strOptTruthy, Bool.not_false, Bool.and_false, Bool.false_eq_true, if_false]
    unfold resolveTier4
    rw [hhead]
    rw [List.headD_eq_head?] at hne
    simp [strOptTruthy, bne_iff_ne, List.headD_eq_head?, hne]
  · intro bk mem args hid hpn hlast hhead
    have hid1 : resolveTier1 args = none := by unfold resolveTier1; rw [hid]; simp
    unfold resolveProjectId
    rw [hid1]
    unfold resolveTier2
    rw [hpn]
    simp only [Bool.and_false, Bool.false_eq_true, if_false]
    unfold resolveTier3
    rw [hlast]
    simp only [strOptTruthy, Bool.not_false, Bool.and_false, Bool.false_eq_true, if_false]
    unfold resolveTier4
    rw [hhead]
    simp [strOptTruthy, invalidArgMsg]
  · intro bk mem args
    unfold resolveDeleteTarget resolveProjectId
    rw [← resolveDeleteTier2_fst bk args (resolveTier1 args) .null]
    cases hd : resolveDeleteTier2 bk args (resolveTier1 args, .null) with
    | error e => simp [Except.map]
    | ok idName =>
      simp only [Except.map]
      have h43 : (resolveDeleteTier4 mem (resolveDeleteTier3 mem idName)).1
          = resolveTier4 mem (resolveTier3 mem idName.1) := by
        rw [resolveDeleteTier4_fst, resolveDeleteTier3_fst]
      rw [h43]
      by_cases hf : strOptTruthy (resolveTier4 mem (resolveTier3 mem idName.1)) = true
      · simp [hf, h43]
      · simp only [Bool.not_eq_true] at hf
        simp [hf, h43]

/-- Witness for C1: an explicit `id` argument resolves to itself even though
the backend always fails and the memory is empty. -/
theorem claim_C1_witness :
    resolveProjectId bkUnused freshMemory (.obj [("id", .str "A1")]) = .ok "A1" := by
  exact (claim_C1_resolution_order.1 bkUnused freshMemory (.obj [("id", .str "A1")]) rfl).trans rfl

/-- Counterexample for C3: the `lastEntity` fallback tier does not accept the
alternate `projectId` spelling — with the last project's identifier present
under `projectId` (and no `id`), resolution falls through every tier and fails
with the invalid-argument error instead of using `p1`. -/
theorem claim_C3_counterexample :
    jsGet memOnlyProjectId.lastProject ("projectId") = some (.str "p1")
    ∧ jsGet memOnlyProjectId.lastProject ("id") = none
    ∧ resolveProjectId bkUnused memOnlyProjectId (.obj []) = .error invalidArgMsg :=
  ⟨rfl, rfl, rfl⟩

/-- C3 (amended): the identifier is accepted under either spelling (`id`,
else `projectId`) at the search-by-name resolution tier and at
`deleteRandom`'s selected entity; the `lastEntity` and `lastSearchResults`
Context-Memory fallback tiers consult only the `id` field and ignore
`projectId`. -/
theorem claim_C3_amended_alternate_id :
    (∀ bk mem args s found v,
        hasNonEmptyString args ("id") = false →
        jsGet args ("projectName") = some (.str s) → jsTrim s ≠ "" →
        searchFirstByName bk s = .ok (some found) →
        unNullish (jsGet found ("id")) = none →
        jsGet found ("projectId") = some v →
        jsToString v ≠ "" →
        resolveProjectId bk mem args = .ok (jsToString v))
  ∧ (∀ env bk rand mem args r p e v u,
        bk.list (batchLimitOf args) = .ok r →
        normalizeListPayload r = .ok p →
        p.items = [e] →
        unNullish (jsGet e ("id")) = none →
        jsGet e ("projectId") = some v →
        bk.delete (jsToString v) = .ok u →
        runTool env bk rand mem "projects.deleteRandom" args
          = .ok ({ mem with lastProject := .null },
                 [.text ("Deleted random project \""
                   ++ jsToString (nnD (jsGet e ("projectName")) (nnD (jsGet e ("name")) (.str "(unnamed)")))
                   ++ "\" (id: " ++ jsToString v ++ ").")]))
  ∧ (∀ bk mem args v,
        hasNonEmptyString args ("id") = false →
        hasNonEmptyString args ("projectName") = false →
        jsGet mem.lastProject ("id") = none →
        jsGet mem.lastProject ("projectId") = some v →
        mem.lastSearchItems = [] →
        resolveProjectId bk mem args = .error invalidArgMsg)
  ∧ (∀ bk args e v,
        hasNonEmptyString args ("id") = false →
        hasNonEmptyString args ("projectName") = false →
        jsGet e ("id") = none →
        jsGet e ("projectId") = some v →
        resolveProjectId bk ⟨.null, [e]⟩ args = .error invalidArgMsg) := by
  refine ⟨?_, ?_, ?_, ?_⟩
  · intro bk mem args s found v hid hpn htr hsearch hidn hpid hvne
    have hhas : hasNonEmptyString args ("projectName") = true := by
      unfold hasNonEmptyString
      rw [hpn]
      simp [htr]
    have hid1 : resolveTier1 args = none := by unfold resolveTier1; rw [hid]; simp
    have hnm : jsToString ((jsGet args ("projectName")).getD .null) = s := by rw [hpn]; rfl
    have hidf : idFieldOf found = some v := by
      unfold idFieldOf nullishCoalesce
      rw [hidn, hpid]
    unfold resolveProjectId
    rw [hid1]
    unfold resolveTier2
    rw [hnm]
    simp only [strOptTruthy, hhas, hsearch, Bool.not_false, Bool.and_self, if_true]
    rw [hidf]
    unfold resolveTier3 resolveTier4
    simp [strOptTruthy, bne_iff_ne, jsToStringOpt, hvne]
  · intro env bk rand mem args r p e v u hlist hnorm hitems hidn hpid hdel
    have hrt : runTool env bk rand mem "projects.deleteRandom" args
        = toolDeleteRandom bk rand mem args := rfl
    rw [hrt]
    unfold toolDeleteRandom fetchSomeProjects
    rw [hlist]
    dsimp only []
    rw [hnorm]
    dsimp only []
    rw [hitems]
    have hidf : idFieldOf e = some v := by
      unfold idFieldOf nullishCoalesce
      rw [hidn, hpid]
    simp only [List.isEmpty_cons, Bool.false_eq_true, if_false, List.length_cons,
      List.length_nil, Nat.zero_add, Nat.mod_one, List.getD, List.getElem?_cons_zero,
      List.get?_cons_zero, Option.getD_some, hidf, jsToStringOpt]
    rw [hdel]
  · intro bk mem args v hid hpn hlid hpidv hempty
    have hid1 : resolveTier1 args = none := by unfold resolveTier1; rw [hid]; simp
    have h3 : lastProjectIdTruthy mem = false := by
      unfold lastProjectIdTruthy
      rw [hlid]
    have h4 : lastSearchHeadIdTruthy mem = false := by
      unfold lastSearchHeadIdTruthy
      rw [hempty]
      rfl
    unfold resolveProjectId
    rw [hid1]
    unfold resolveTier2
    rw [hpn]
    simp only [Bool.and_false, Bool.false_eq_true, if_false]
    unfold resolveTier3
    rw [h3]
    simp only [Bool.and_false, Bool.false_eq_true, if_false]
    unfold resolveTier4
    rw [h4]
    simp [strOptTruthy]
  · intro bk args e v hid hpn heid hepid
    have hid1 : resolveTier1 args = none := by unfold resolveTier1; rw [hid]; simp
    have h3 : lastProjectIdTruthy ⟨.null, [e]⟩ = false := rfl
    have h4 : lastSearchHeadIdTruthy ⟨.null, [e]⟩ = false := by
      unfold lastSearchHeadIdTruthy
      simp only [List.head?_cons]
      rw [heid]
    unfold resolveProjectId
    rw [hid1]
    unfold resolveTier2
    rw [hpn]
    simp only [Bool.and_false, Bool.false_eq_true, if_false]
    unfold resolveTier3
    rw [h3]
    simp only [Bool.and_false, Bool.false_eq_true, if_false]
    unfold resolveTier4
    rw [h4]
    simp [strOptTruthy]

/-- Witness for the amended C3: `bkPid`'s search finds an entity whose only
identifier spelling is `projectId`, and name-based resolution adopts it. -/
theorem claim_C3_amended_witness :
    resolveProjectId bkPid freshMemory (.obj [("projectName", .str "Elm")]) = .ok "p9" := by
  exact (claim_C3_amended_alternate_id.1 bkPid freshMemory
    (.obj [("projectName", .str "Elm")]) "Elm" entPid (.str "p9")
    rfl rfl (by decide) rfl rfl rfl (by decide)).trans rfl

/-- A failing `ai.summarize` leaves memory untouched. -/
theorem toolSummarize_error_mem (env : Env) (bk : Backend) (mem : Memory) (args : JsVal)
    (e : String) (mem' : Memory)
    (h : toolSummarize env bk mem args = .error (e, mem')) : mem' = mem := by
  unfold toolSummarize at h
  repeat' split at h
  all_goals try simp_all
  all_goals repeat' split at h
  all_goals simp_all

/-- A failing `projects.create` leaves memory untouched. -/
theorem toolCreate_error_mem (bk : Backend) (mem : Memory) (args : JsVal)
    (e : String) (mem' : Memory)
    (h : toolCreate bk mem args = .error (e, mem')) : mem' = mem := by
  unfold toolCreate at h
  repeat' split at h
  all_goals try simp_all
  all_goals repeat' split at h
  all_goals simp_all

/-- A failing `projects.get` leaves memory untouched. -/
theorem toolGet_error_mem (env : Env) (bk : Backend) (mem : Memory) (args : JsVal)
    (e : String) (mem' : Memory)
    (h : toolGet env bk mem args = .error (e, mem')) : mem' = mem := by
  unfold toolGet at h
  repeat' split at h
  all_goals try simp_all
  all_goals repeat' split at h
  all_goals simp_all

/-- A failing `projects.update` leaves memory untouched. -/
theorem toolUpdate_error_mem (bk : Backend) (mem : Memory) (args : JsVal)
    (e : String) (mem' : Memory)
    (h : toolUpdate bk mem args = .error (e, mem')) : mem' = mem := by
  unfold toolUpdate at h
  repeat' split at h
  all_goals try simp_all
  all_goals repeat' split at h
  all_goals simp_all

/-- A failing `projects.delete` leaves memory untouched. -/
theorem toolDelete_error_mem (bk : Backend) (mem : Memory) (args : JsVal)
    (e : String) (mem' : Memory)
    (h : toolDelete bk mem args = .error (e, mem')) : mem' = mem := by
  unfold toolDelete at h
  repeat' split at h
  all_goals try simp_all
  all_goals repeat' split at h
  all_goals simp_all

/-- A failing `projects.deleteRandom` leaves memory untouched. -/
theorem toolDeleteRandom_error_mem (bk : Backend) (rand : Nat) (mem : Memory) (args : JsVal)
    (e : String) (mem' : Memory)
    (h : toolDeleteRandom bk rand mem args = .error (e, mem')) : mem' = mem := by
  unfold toolDeleteRandom at h
  repeat' split at h
  all_goals try simp_all
  all_goals repeat' split at h
  all_goals simp_all

/-- A failing `projects.search` leaves memory untouched. -/
theorem toolSearch_error_mem (bk : Backend) (mem : Memory) (args : JsVal)
    (e : String) (mem' : Memory)
    (h : toolSearch bk mem args = .error (e, mem')) : mem' = mem := by
  unfold toolSearch at h
  repeat' split at h
  all_goals try simp_all
  all_goals repeat' split at h
  all_goals simp_all

/-- C10: every failing tool invocation leaves Context Memory exactly as it
was — the memory carried by the thrown error is the input memory, because
every handler assigns `lastProject` / `lastSearchItems` only after its backend
call (and, for search, normalization) has succeeded. -/
theorem claim_C10_error_preserves_memory (env : Env) (bk : Backend) (rand : Nat)
    (mem : Memory) (name : String) (args : JsVal) (e : String) (mem' : Memory)
    (h : runTool env bk rand mem name args = .error (e, mem')) : mem' = mem := by
  unfold runTool at h
  repeat' split at h
  all_goals first
    | exact toolSummarize_error_mem env bk mem args e mem' h
    | exact toolCreate_error_mem bk mem args e mem' h
    | exact toolGet_error_mem env bk mem args e mem' h
    | exact toolUpdate_error_mem bk mem args e mem' h
    | exact toolDelete_error_mem bk mem args e mem' h
    | exact toolDeleteRandom_error_mem bk rand mem args e mem' h
    | exact toolSearch_error_mem bk mem args e mem' h
    | simp_all

/-- Witness for C10: a `projects.get` with no identifier sources fails with
the invalid-argument error and the carried memory is the untouched input
memory. -/
theorem claim_C10_witness :
    runTool envNoKey bkUnused 0 freshMemory "projects.get" (.obj [])
      = .error (invalidArgMsg, freshMemory)
    ∧ freshMemory = freshMemory :=
  ⟨rfl, claim_C10_error_preserves_memory envNoKey bkUnused 0 freshMemory
    "projects.get" (.obj []) invalidArgMsg freshMemory rfl⟩

/-- C4: after a successful `create`, `get`, or `update`, `lastProject` equals
the (truthy) entity returned in the result block — which is the value the
backend call produced; after a successful `delete` or `deleteRandom`,
`lastProject` is cleared to `null` regardless of its previous content. -/
theorem claim_C4_lastEntity_updates :
    (∀ env bk rand mem args mem' v,
        runTool env bk rand mem "projects.create" args = .ok (mem', [.json v]) →
        jsTruthy v = true → mem'.lastProject = v)
  ∧ (∀ env bk rand mem args mem' v,
        runTool env bk rand mem "projects.get" args = .ok (mem', [.json v]) →
        jsTruthy v = true → mem'.lastProject = v)
  ∧ (∀ env bk rand mem args mem' v,
        runTool env bk rand mem "projects.update" args = .ok (mem', [.json v]) →
        jsTruthy v = true → mem'.lastProject = v)
  ∧ (∀ env bk rand mem args mem' out,
        runTool env bk rand mem "projects.delete" args = .ok (mem', out) →
        mem'.lastProject = .null)
  ∧ (∀ env bk rand mem args mem' out,
        runTool env bk rand mem "projects.deleteRandom" args = .ok (mem', out) →
        mem'.lastProject = .null) := by
  refine ⟨?_, ?_, ?_, ?_, ?_⟩
  · intro env bk rand mem args mem' v h ht
    replace h : toolCreate bk mem args = .ok (mem', [.json v]) := h
    unfold toolCreate at h
    repeat' split at h
    all_goals try simp_all
    all_goals repeat' split at h
    all_goals try simp_all
    all_goals (obtain ⟨h1, h2⟩ := h; rw [← h1]; try simp_all)
  · intro env bk rand mem args mem' v h ht
    replace h : toolGet env bk mem args = .ok (mem', [.json v]) := h
    unfold toolGet at h
    repeat' split at h
    all_goals try simp_all
    all_goals repeat' split at h
    all_goals try simp_all
    all_goals (obtain ⟨h1, h2⟩ := h; rw [← h1]; try simp_all)
  · intro env bk rand mem args mem' v h ht
    replace h : toolUpdate bk mem args = .ok (mem', [.json v]) := h
    unfold toolUpdate at h
    repeat' split at h
    all_goals try simp_all
    all_goals repeat' split at h
    all_goals try simp_all
    all_goals (obtain ⟨h1, h2⟩ := h; rw [← h1]; try simp_all)
  · intro env bk rand mem args mem' out h
    replace h : toolDelete bk mem args = .ok (mem', out) := h
    unfold toolDelete at h
    repeat' split at h
    all_goals try simp_all
    all_goals repeat' split at h
    all_goals try simp_all
    all_goals (obtain ⟨h1, h2⟩ := h; rw [← h1]; try simp_all)
  · intro env bk rand mem args mem' out h
    replace h : toolDeleteRandom bk rand mem args = .ok (mem', out) := h
    unfold toolDeleteRandom at h
    repeat' split at h
    all_goals try simp_all
    all_goals repeat' split at h
    all_goals try simp_all
    all_goals (obtain ⟨h1, h2⟩ := h; rw [← h1]; try simp_all)

/-- Witness for C4: a successful create stores the created entity in
`lastProject`. -/
theorem claim_C4_witness :
    runTool envNoKey bkCreate 0 freshMemory "projects.create" argsCreate
      = .ok (⟨entCreated, []⟩, [.json entCreated])
    ∧ Memory.lastProject ⟨entCreated, []⟩ = entCreated :=
  ⟨rfl, claim_C4_lastEntity_updates.1 envNoKey bkCreate 0 freshMemory argsCreate
    ⟨entCreated, []⟩ entCreated rfl rfl⟩

/-- A successful `ai.summarize` leaves the search results untouched. -/
theorem toolSummarize_ok_searchItems (env : Env) (bk : Backend) (mem : Memory)
    (args : JsVal) (mem' : Memory) (out : List Content)
    (h : toolSummarize env bk mem args = .ok (mem', out)) :
    mem'.lastSearchItems = mem.lastSearchItems := by
  unfold toolSummarize at h
  repeat' split at h
  all_goals try simp_all
  all_goals repeat' split at h
  all_goals simp_all

/-- A successful `projects.create` leaves the search results untouched. -/
theorem toolCreate_ok_searchItems (bk : Backend) (mem : Memory)
    (args : JsVal) (mem' : Memory) (out : List Content)
    (h : toolCreate bk mem args = .ok (mem', out)) :
    mem'.lastSearchItems = mem.lastSearchItems := by
  unfold toolCreate at h
  repeat' split at h
  all_goals try simp_all
  all_goals repeat' split at h
  all_goals try simp_all
  all_goals (obtain ⟨h1, h2⟩ := h; rw [← h1])

/-- A successful `projects.get` leaves the search results untouched. -/
theorem toolGet_ok_searchItems (env : Env) (bk : Backend) (mem : Memory)
    (args : JsVal) (mem' : Memory) (out : List Content)
    (h : toolGet env bk mem args = .ok (mem', out)) :
    mem'.lastSearchItems = mem.lastSearchItems := by
  unfold toolGet at h
  repeat' split at h
  all_goals try simp_all
  all_goals repeat' split at h
  all_goals try simp_all
  all_goals (obtain ⟨h1, h2⟩ := h; rw [← h1])

/-- A successful `projects.update` leaves the search results untouched. -/
theorem toolUpdate_ok_searchItems (bk : Backend) (mem : Memory)
    (args : JsVal) (mem' : Memory) (out : List Content)
    (h : toolUpdate bk mem args = .ok (mem', out)) :
    mem'.lastSearchItems = mem.lastSearchItems := by
  unfold toolUpdate at h
  repeat' split at h
  all_goals try simp_all
  all_goals repeat' split at h
  all_goals try simp_all
  all_goals (obtain ⟨h1, h2⟩ := h; rw [← h1])

/-- A successful `projects.delete` leaves the search results untouched. -/
theorem toolDelete_ok_searchItems (bk : Backend) (mem : Memory)
    (args : JsVal) (mem' : Memory) (out : List Content)
    (h : toolDelete bk mem args = .ok (mem', out)) :
    mem'.lastSearchItems = mem.lastSearchItems := by
  unfold toolDelete at h
  repeat' split at h
  all_goals try simp_all
  all_goals repeat' split at h
  all_goals try simp_all
  all_goals (obtain ⟨h1, h2⟩ := h; rw [← h1])

/-- A successful `projects.deleteRandom` leaves the search results
untouched. -/
theorem toolDeleteRandom_ok_searchItems (bk : Backend) (rand : Nat) (mem : Memory)
    (args : JsVal) (mem' : Memory) (out : List Content)
    (h : toolDeleteRandom bk rand mem args = .ok (mem', out)) :
    mem'.lastSearchItems = mem.lastSearchItems := by
  unfold toolDeleteRandom at h
  repeat' split at h
  all_goals try simp_all
  all_goals repeat' split at h
  all_goals try simp_all
  all_goals (obtain ⟨h1, h2⟩ := h; rw [← h1])

/-- C5: every successful search stores the normalized items — including an
empty page replacing a previously non-empty one — and no other tool's success
changes `lastSearchItems`. -/
theorem claim_C5_search_overwrites :
    (∀ env bk rand mem args r p,
        bk.searchList (searchParams args) = .ok r →
        normalizeListPayload r = .ok p →
        runTool env bk rand mem "projects.search" args
          = .ok ({ mem with lastSearchItems := p.items }, [.json (payloadJson p)]))
  ∧ (∀ env bk rand mem name args mem' out, name ≠ "projects.search" →
        runTool env bk rand mem name args = .ok (mem', out) →
        mem'.lastSearchItems = mem.lastSearchItems) := by
  constructor
  · intro env bk rand mem args r p h1 h2
    have hrt : runTool env bk rand mem "projects.search" args = toolSearch bk mem args := rfl
    rw [hrt]
    unfold toolSearch
    rw [h1]
    dsimp only []
    rw [h2]
  · intro env bk rand mem name args mem' out hne h
    unfold runTool at h
    repeat' split at h
    all_goals first
      | exact toolSummarize_ok_searchItems env bk mem args mem' out h
      | exact toolCreate_ok_searchItems bk mem args mem' out h
      | exact toolGet_ok_searchItems env bk mem args mem' out h
      | exact toolUpdate_ok_searchItems bk mem args mem' out h
      | exact toolDelete_ok_searchItems bk mem args mem' out h
      | exact toolDeleteRandom_ok_searchItems bk rand mem args mem' out h
      | simp_all
      | (exact absurd (by assumption) hne)

/-- Witness for C5: a search returning an empty page replaces a previously
non-empty `lastSearchItems` with the empty list. -/
theorem claim_C5_witness :
    runTool envNoKey bkEmpty 0 memWithItems "projects.search" (.obj [])
      = .ok ({ memWithItems with lastSearchItems := [] },
             [.json (payloadJson ⟨[], 0⟩)]) := by
  exact (claim_C5_search_overwrites.1 envNoKey bkEmpty 0 memWithItems (.obj [])
    (.obj [("items", .arr []), ("total", .num (.fin 0))]) ⟨[], 0⟩ rfl rfl)

/-- C6: inside `get`, with an LLM credential and truthy notes, the summary is
attempted and a failing summary sub-step is caught locally: the error message
is attached to the entity as `notes_summary_error`, the invocation still
succeeds with that entity, and `lastProject` is set to it.  With no credential
— or with notes absent on every fetchable entity — the handler's result does
not depend on the LLM oracle at all (no summary call is made). -/
theorem claim_C6_notes_summary :
    (∀ (env : Env) (bk : Backend) (mem : Memory) (args : JsVal) (i : String)
        (project : JsVal) (e : String) (fs : List (String × JsVal)),
        env.openaiKey ≠ "" →
        resolveProjectId bk mem args = .ok i →
        bk.getById i = .ok project →
        project = .obj fs →
        notesTruthy project = true →
        bk.llm (jsToString ((jsGet project ("notes")).getD .null)) = .error e →
        toolGet env bk mem args
          = .ok ({ mem with lastProject := objSet project ("notes_summary_error") (.str e) },
                 [.json (objSet project ("notes_summary_error") (.str e))]))
  ∧ (∀ (env : Env) (bk : Backend) (mem : Memory) (args : JsVal)
        (f g : String → Except String String), env.openaiKey = "" →
        toolGet env { bk with llm := f } mem args = toolGet env { bk with llm := g } mem args)
  ∧ (∀ (env : Env) (bk : Backend) (mem : Memory) (args : JsVal)
        (f g : String → Except String String),
        (∀ i p, bk.getById i = .ok p → notesTruthy p = false) →
        toolGet env { bk with llm := f } mem args
          = toolGet env { bk with llm := g } mem args) := by
  refine ⟨?_, ?_, ?_⟩
  · intro env bk mem args i project e fs hkey hres hget hobj hnotes hllm
    have hkb : (env.openaiKey != "") = true := by simp [bne_iff_ne, hkey]
    have htr : jsTruthy (objSet project ("notes_summary_error") (.str e)) = true := by
      rw [hobj]
      rfl
    unfold toolGet
    rw [hres]
    dsimp only []
    rw [hget]
    dsimp only []
    rw [hkb, hnotes]
    simp [hllm, htr]
  · intro env bk mem args f g hkey
    have hkb : (env.openaiKey != "") = false := by simp [hkey]
    have hres : resolveProjectId { bk with llm := f } mem args
        = resolveProjectId { bk with llm := g } mem args := rfl
    unfold toolGet
    rw [hres]
    cases hr : resolveProjectId { bk with llm := g } mem args with
    | error e => rfl
    | ok i =>
      dsimp only []
      have hgb : ({ bk with llm := f } : Backend).getById i
          = ({ bk with llm := g } : Backend).getById i := rfl
      rw [hgb]
      cases hg : ({ bk with llm := g } : Backend).getById i with
      | error e => rfl
      | ok project =>
        dsimp only []
        rw [hkb]
        rfl
  · intro env bk mem args f g hnn
    have hres : resolveProjectId { bk with llm := f } mem args
        = resolveProjectId { bk with llm := g } mem args := rfl
    unfold toolGet
    rw [hres]
    cases hr : resolveProjectId { bk with llm := g } mem args with
    | error e => rfl
    | ok i =>
      dsimp only []
      have hgb : ({ bk with llm := f } : Backend).getById i
          = ({ bk with llm := g } : Backend).getById i := rfl
      rw [hgb]
      cases hg : ({ bk with llm := g } : Backend).getById i with
      | error e => rfl
      | ok project =>
        dsimp only []
        have hnp : notesTruthy project = false :=
          hnn i project (by exact hg)
        rw [hnp]
        simp only [Bool.and_false, Bool.false_eq_true, if_false]

/-- Witness for C6: with a credential configured, `bkNotes`'s failing LLM
call is attached as `notes_summary_error` on the fetched entity while the get
succeeds and memory stores the annotated entity. -/
theorem claim_C6_witness :
    toolGet envKeyed bkNotes freshMemory (.obj [("id", .str "7")])
      = .ok (⟨.obj [("id", .str "7"), ("notes", .str "some notes"),
                    ("notes_summary_error", .str "rate limited")], []⟩,
             [.json (.obj [("id", .str "7"), ("notes", .str "some notes"),
                           ("notes_summary_error", .str "rate limited")])]) := by
  have h := claim_C6_notes_summary.1 envKeyed bkNotes freshMemory (.obj [("id", .str "7")])
    "7" entNotes "rate limited" [("id", .str "7"), ("notes", .str "some notes")]
    (by decide) rfl rfl rfl rfl rfl
  exact h.trans rfl

/-- C7: the requested batch size of `deleteRandom` is 25 when the `limit`
argument is absent or not a finite number, and `max 1 limit` otherwise — so it
is always at least 1 (`limit = 0` yields 1, never 0); and when the fetched
batch is empty the call fails with the not-found error before consulting the
delete oracle at all (the outcome is the same for every delete oracle). -/
theorem claim_C7_deleteRandom_batch :
    (∀ args, jsGet args ("limit") = none → batchLimitOf args = 25)
  ∧ (∀ args v, jsGet args ("limit") = some v → (∀ q, v ≠ .num (.fin q)) →
        batchLimitOf args = 25)
  ∧ (∀ args q, jsGet args ("limit") = some (.num (.fin q)) → batchLimitOf args = max 1 q)
  ∧ (∀ args, 1 ≤ batchLimitOf args)
  ∧ (∀ env bk rand mem args r p,
        bk.list (batchLimitOf args) = .ok r →
        normalizeListPayload r = .ok p →
        p.items = [] →
        runTool env bk rand mem "projects.deleteRandom" args
          = .error ("No projects available to delete.", mem)
        ∧ ∀ f, runTool env { bk with delete := f } rand mem "projects.deleteRandom" args
          = .error ("No projects available to delete.", mem)) := by
  refine ⟨?_, ?_, ?_, ?_, ?_⟩
  · intro args h
    unfold batchLimitOf
    rw [h]
  · intro args v h hne
    unfold batchLimitOf
    rw [h]
    cases v with
    | num n =>
      cases n with
      | fin q => exact absurd rfl (hne q)
      | nan => rfl
      | posInf => rfl
      | negInf => rfl
    | null => rfl
    | bool b => rfl
    | str s => rfl
    | arr xs => rfl
    | obj fs => rfl
  · intro args q h
    unfold batchLimitOf
    rw [h]
  · intro args
    unfold batchLimitOf
    cases h : jsGet args ("limit") with
    | none => norm_num
    | some v =>
      cases v with
      | num n =>
        cases n with
        | fin q => exact le_max_left 1 q
        | nan => norm_num
        | posInf => norm_num
        | negInf => norm_num
      | null => norm_num
      | bool b => norm_num
      | str s => norm_num
      | arr xs => norm_num
      | obj fs => norm_num
  · intro env bk rand mem args r p hlist hnorm hitems
    constructor
    · have hrt : runTool env bk rand mem "projects.deleteRandom" args
          = toolDeleteRandom bk rand mem args := rfl
      rw [hrt]
      unfold toolDeleteRandom fetchSomeProjects
      rw [hlist]
      dsimp only []
      rw [hnorm]
      dsimp only []
      rw [hitems]
      rfl
    · intro f
      have hrt : runTool env { bk with delete := f } rand mem "projects.deleteRandom" args
          = toolDeleteRandom { bk with delete := f } rand mem args := rfl
      rw [hrt]
      unfold toolDeleteRandom fetchSomeProjects
      have hl : ({ bk with delete := f } : Backend).list (batchLimitOf args) = .ok r := hlist
      rw [hl]
      dsimp only []
      rw [hnorm]
      dsimp only []
      rw [hitems]
      rfl

/-- Witness for C7: with `limit = 0` the batch size is clamped to 1, and an
empty batch fails with the not-found error under every delete oracle. -/
theorem claim_C7_witness :
    batchLimitOf (.obj [("limit", .num (.fin 0))]) = 1
    ∧ runTool envNoKey bkEmpty 0 freshMemory "projects.deleteRandom"
        (.obj [("limit", .num (.fin 0))])
        = .error ("No projects available to delete.", freshMemory) := by
  constructor
  · exact (claim_C7_deleteRandom_batch.2.2.1 (.obj [("limit", .num (.fin 0))]) 0 rfl).trans
      (by norm_num)
  · exact (claim_C7_deleteRandom_batch.2.2.2.2 envNoKey bkEmpty 0 freshMemory
      (.obj [("limit", .num (.fin 0))]) (.arr []) ⟨[], 0⟩ rfl rfl rfl).1

/-- Closed form of `renderSearch` on a normalized payload. -/
theorem renderSearch_payload (xs : List JsVal) (t : ℚ) :
    renderSearch (searchPayloadJson xs t)
      = if xs.isEmpty then "No matching projects found."
        else "**Found " ++ finNumToString t ++ " project" ++ (if t = 1 then "" else "s")
          ++ "**\n\n" ++ searchTableHead ++ "\n"
          ++ String.intercalate "\n" ((xs.take 5).map renderRow)
          ++ (if 5 < t then "\n\n_Showing 5 of " ++ finNumToString t ++ " results._"
              else "") := by
  unfold renderSearch searchPayloadJson
  have h1 : jsGet (JsVal.obj [("items", .arr xs), ("total", .num (.fin t))]) ("items")
      = some (.arr xs) := rfl
  have h2 : jsGet (JsVal.obj [("items", .arr xs), ("total", .num (.fin t))]) ("total")
      = some (.num (.fin t)) := rfl
  rw [show jsTruthy (JsVal.obj [("items", .arr xs), ("total", .num (.fin t))]) = true from rfl]
  simp only [if_true, h1, h2, Option.getD_some]
  cases xs with
  | nil => rfl
  | cons a rest =>
    simp only [List.isEmpty_cons, Bool.false_eq_true, if_false, jsGtNum, jsToNumber,
      jsStrictEqOne, jsToString, jsNumToString, decide_eq_true_eq, beq_iff_eq]

/-- C9: on normalized payloads the search renderer returns the fixed
no-results sentence for an empty item list; depends only on the first five
items; appends the truncation note (stating the true total) exactly when the
total exceeds five; and renders each row from the five recognized fields with
alternate spellings, pipe escaping, the code-fenced identifier, and em-dash
placeholders for missing fields. -/
theorem claim_C9_renderSearch :
    (∀ t : ℚ, renderSearch (searchPayloadJson [] t) = "No matching projects found.")
  ∧ (∀ xs t, renderSearch (searchPayloadJson xs t)
      = renderSearch (searchPayloadJson (xs.take 5) t))
  ∧ (∀ xs t, xs ≠ [] → 5 < t →
      ∃ pre, renderSearch (searchPayloadJson xs t)
        = pre ++ ("\n\n_Showing 5 of " ++ finNumToString t ++ " results._"))
  ∧ (∀ xs t, xs ≠ [] → ¬ 5 < t →
      renderSearch (searchPayloadJson xs t)
        = "**Found " ++ finNumToString t ++ " project" ++ (if t = 1 then "" else "s")
          ++ "**\n\n" ++ searchTableHead ++ "\n"
          ++ String.intercalate "\n" ((xs.take 5).map renderRow))
  ∧ renderRow (.obj []) = "| — | — | — | — | `—` |"
  ∧ (∀ n a zc zt i : String,
      renderRow (.obj [("projectName", .str n), ("address", .str a), ("zoningCode", .str zc),
        ("zoneType", .str zt), ("id", .str i)])
        = "| " ++ escapePipes n ++ " | " ++ escapePipes a ++ " | " ++ escapePipes zc
          ++ " | " ++ escapePipes zt ++ " | `" ++ escapePipes i ++ "` |")
  ∧ escapePipes "a|b" = "a\\|b" := by
  refine ⟨?_, ?_, ?_, ?_, ?_, ?_, ?_⟩
  · intro t
    rw [renderSearch_payload]
    rfl
  · intro xs t
    rw [renderSearch_payload, renderSearch_payload]
    cases xs with
    | nil => rfl
    | cons a rest =>
      simp [List.take_take]
  · intro xs t hxs h5
    rw [renderSearch_payload]
    rw [if_neg (by simpa using hxs), if_pos h5]
    exact ⟨_, rfl⟩
  · intro xs t hxs h5
    rw [renderSearch_payload]
    rw [if_neg (by simpa using hxs), if_neg h5]
    simp
  · rfl
  · intro n a zc zt i
    rfl
  · rfl

/-- Witness for C9: the spec's Oak-Street scenario renders as a one-row
table with the five fields and no truncation note. -/
theorem claim_C9_witness :
    renderSearch (searchPayloadJson [oakEntity] 1)
      = "**Found 1 project**\n\n| Project | Address | Zoning | Zone Type | ID |\n|---|---|---|---|---|\n| Oak St | 1 Oak | R1 | Residential | `1` |" := by
  have h := claim_C9_renderSearch.2.2.2.1 [oakEntity] 1 (by simp) (by norm_num)
  exact h.trans (by with_unfolding_all rfl)

/-- The operational regex scan agrees with the declarative first-`{`-to-last-
`}` span description. -/
theorem regexBraceScan_eq_span (cs : List Char) :
    regexBraceScan cs = braceSpanFirstLast cs := by
  induction cs with
  | nil => rfl
  | cons c rest ih =>
    by_cases hc : c = '{'
    · subst hc
      cases hl : lastCloseIdx rest with
      | some j =>
        simp [regexBraceScan, braceSpanFirstLast, firstOpenIdx, lastCloseIdx, hl,
          List.take_succ_cons, Nat.sub_zero]
      | none =>
        have hrest : braceSpanFirstLast rest = none := by
          unfold braceSpanFirstLast
          rw [hl]
          cases firstOpenIdx rest <;> rfl
        have hscan : regexBraceScan ('{' :: rest) = regexBraceScan rest := by
          simp [regexBraceScan, hl]
        have hl' : lastCloseIdx ('{' :: rest) = none := by
          unfold lastCloseIdx
          rw [hl]
          rfl
        rw [hscan, ih, hrest]
        unfold braceSpanFirstLast
        rw [hl']
        cases firstOpenIdx ('{' :: rest) <;> rfl
    · have hscan : regexBraceScan (c :: rest) = regexBraceScan rest := by
        simp [regexBraceScan, hc]
      rw [hscan, ih]
      cases hf : firstOpenIdx rest with
      | none =>
        have hf' : firstOpenIdx (c :: rest) = none := by
          unfold firstOpenIdx
          simp [hc, hf]
        unfold braceSpanFirstLast
        rw [hf, hf']
      | some i =>
        have hf' : firstOpenIdx (c :: rest) = some (i + 1) := by
          unfold firstOpenIdx
          simp [hc, hf]
        cases hl : lastCloseIdx rest with
        | some j =>
          have hl' : lastCloseIdx (c :: rest) = some (j + 1) := by
            unfold lastCloseIdx
            rw [hl]
          unfold braceSpanFirstLast
          rw [hf, hf', hl, hl']
          dsimp only []
          by_cases hij : i < j
          · rw [if_pos hij, if_pos (Nat.succ_lt_succ hij)]
            simp [Nat.succ_sub_succ, List.drop_succ_cons]
          · rw [if_neg hij, if_neg (fun h => hij (Nat.lt_of_succ_lt_succ h))]
        | none =>
          have hl' : lastCloseIdx (c :: rest) = (if c = '}' then some 0 else none) := by
            unfold lastCloseIdx
            rw [hl]
          unfold braceSpanFirstLast
          rw [hf, hf', hl, hl']
          by_cases hcc : c = '}'
          · rw [if_pos hcc]
            dsimp only []
            simp
          · rw [if_neg hcc]

/-- Counterexample for C8: on a reply with prose around two JSON objects the
claim predicts the first balanced-brace substring (which parses) becomes the
plan, but the handler's greedy regex spans from the first `\x7b` to the last
`\x7d`, so its extraction fails to parse and the call fails with the
propagated syntax error. -/
theorem claim_C8_counterexample :
    specFirstBalancedBrace routerReplyX = some "\x7b\"tool\":\"x\"\x7d"
    ∧ jsonParse "\x7b\"tool\":\"x\"\x7d" = some (.obj [("tool", .str "x")])
    ∧ routeParsePlan routerReplyX = .error .syntaxErr := by
  refine ⟨rfl, ?_, ?_⟩
  · with_unfolding_all rfl
  · with_unfolding_all rfl

/-- C8 (amended): the router reply handling parses the whole reply as JSON
when possible; otherwise it extracts the span from the first `\x7b` to the
last `\x7d` (the greedy regex match) and parses that as the plan — a parse
failure of the extracted span propagates as a syntax error rather than the
router error; only when no closing brace follows an opening brace does the
call fail with `RouterError` (`Router did not return JSON`). -/
theorem claim_C8_amended_router :
    (∀ s v, jsonParse s = some v → routeParsePlan s = .ok v)
  ∧ (∀ s, jsonParse s = none → regexBraceScan s.toList = none →
      routeParsePlan s = .error .noJson)
  ∧ (∀ s m, jsonParse s = none → regexBraceScan s.toList = some m →
      routeParsePlan s
        = (match jsonParse (String.mk m) with
           | some plan => .ok plan
           | none => .error .syntaxErr))
  ∧ (∀ cs, regexBraceScan cs = braceSpanFirstLast cs) := by
  refine ⟨?_, ?_, ?_, regexBraceScan_eq_span⟩
  · intro s v h
    unfold routeParsePlan
    rw [h]
  · intro s h1 h2
    unfold routeParsePlan
    rw [h1]
    dsimp only []
    rw [h2]
  · intro s m h1 h2
    unfold routeParsePlan
    rw [h1]
    dsimp only []
    rw [h2]

/-- Witness for the amended C8: a braceless reply fails with the router
error, and a prose-wrapped single JSON object is recovered through the greedy
span. -/
theorem claim_C8_amended_witness :
    routeParsePlan "no json here" = .error .noJson
    ∧ routeParsePlan "plan: \x7b\"tool\":\"y\"\x7d ok"
        = .ok (.obj [("tool", .str "y")]) := by
  constructor
  · exact claim_C8_amended_router.2.1 "no json here" (by with_unfolding_all rfl) rfl
  · exact (claim_C8_amended_router.2.2.1 "plan: \x7b\"tool\":\"y\"\x7d ok"
      ("\x7b\"tool\":\"y\"\x7d".toList) (by with_unfolding_all rfl) rfl).trans
      (by with_unfolding_all rfl)
